import Mathlib

/-!
Shallow embedding of `src/main.py` (repository "Unravelling-asdict").

The source defines:
  * a helper `_unknown_as_blank` turning the sentinel word "unknown" into "";
  * a resolver class `_Processor` whose `get` dispatches to a method named
    `get_{sys.platform}` when one exists (none is defined in the file, so the
    `getattr` default always applies) and otherwise falls back to
    `from_subprocess`, which runs `uname -p` and returns the trimmed stdout,
    swallowing `OSError` and `CalledProcessError` (returning `None`);
  * two tuple-like record classes `uname_result` and `uname_result2`, both
    subclassing a 5-field namedtuple base, adding a `functools.cached_property`
    named `processor`, an overridden `__iter__` / `__getitem__` / `__len__` /
    `_make` / `__reduce__`;
  * a dataclass `UnameInfo` holding one `uname_result2`, and a `main` that
    builds an instance from five literal strings (each passed through
    `_unknown_as_blank`), prints it, and calls `dataclasses.asdict` on the
    wrapping dataclass.

The embedding is explicit-state: the only mutable state of an instance is the
`cached_property` slot for `processor`, modelled as an `Option String` field.
The outcome of the external `uname -p` call is a parameter of every operation
(`SubprocOutcome`), and each operation also returns the number of resolver
invocations it performed, so that "the subprocess is called at most once" is a
statement about the embedding.
-/

namespace UnravellingAsdict

/-- Embedding of `_unknown_as_blank`: returns the empty string when the value
is the sentinel word "unknown", the value itself otherwise. -/
def unknown_as_blank (val : String) : String :=
  if val = "unknown" then "" else val

/-- Outcome of one attempted `subprocess.check_output(["uname", "-p"], ...)`
call: either it produces stdout text, or it raises `OSError` (spawn failure,
command not found) or `subprocess.CalledProcessError` (non-zero exit). -/
inductive SubprocOutcome where
  | ok (stdout : String)
  | osError
  | calledProcessError
deriving DecidableEq

/-- Embedding of Python `str.strip()` with no argument: remove leading and
trailing whitespace characters. -/
def pyStrip (s : String) : String :=
  String.mk
    (((s.data.dropWhile Char.isWhitespace).reverse.dropWhile
        Char.isWhitespace).reverse)

/-- Embedding of `_Processor.from_subprocess`: on success return the stripped
stdout of `uname -p`; the two exception types are caught by the
`try ... except (OSError, subprocess.CalledProcessError): pass` block, and the
function then falls off its end, returning Python `None` (modelled `none`). -/
def from_subprocess : SubprocOutcome → Option String
  | SubprocOutcome.ok stdout => some (pyStrip stdout)
  | SubprocOutcome.osError => none
  | SubprocOutcome.calledProcessError => none

/-- Embedding of `_Processor.get`: no `get_{sys.platform}` method exists in the
class, so `getattr` always yields `from_subprocess`; `func() or ""` maps a
falsy result (Python `None`, or the empty string) to the empty string. -/
def Processor.get (o : SubprocOutcome) : String :=
  match from_subprocess o with
  | none => ""
  | some s => if s = "" then "" else s

/-- The physical representation shared by `uname_result` and `uname_result2`:
the five fields stored by the namedtuple base
`uname_result_base(system, node, release, version, machine)`, plus the
`functools.cached_property` slot for `processor` (empty until first read). -/
structure uname_result where
  system : String
  node : String
  release : String
  version : String
  machine : String
  processor_cache : Option String
deriving DecidableEq

/-- Embedding of Python construction `uname_result(a, b, c, d, e)` (and
identically `uname_result2(a, b, c, d, e)`): the inherited namedtuple
`__new__` stores the five arguments verbatim; the cached property is unset. -/
def uname_result.new (a b c d e : String) : uname_result :=
  ⟨a, b, c, d, e, none⟩

/-- Reading the cached property `processor` of `uname_result`
(`_unknown_as_blank(_Processor.get())`): on a cache miss the resolver runs
once and the result is stored; on a hit the stored value is returned.
Result: the value read, the updated record, the number of resolver calls. -/
def readProcessor (env : SubprocOutcome) (r : uname_result) :
    String × uname_result × Nat :=
  match r.processor_cache with
  | some v => (v, r, 0)
  | none =>
    let v := unknown_as_blank (Processor.get env)
    (v, { r with processor_cache := some v }, 1)

/-- Embedding of `uname_result.__iter__` (also what `tuple(self)` and
`to_sequence` produce): the five base fields in declared order, chained with
the `processor` value. -/
def iterSeq (env : SubprocOutcome) (r : uname_result) :
    List String × uname_result × Nat :=
  let (p, r2, k) := readProcessor env r
  ([r.system, r.node, r.release, r.version, r.machine, p], r2, k)

/-- Python indexing `t[key]` on a tuple, for integer keys: a negative key is
shifted by the length once; the result is the element when the shifted key is
in range, and an `IndexError` (modelled `none`) otherwise. -/
def pyIndex (xs : List String) (key : Int) : Option String :=
  let k : Int := if key < 0 then key + (xs.length : Int) else key
  if 0 ≤ k then xs.get? k.toNat else none

/-- Embedding of `uname_result.__getitem__` for integer keys:
`tuple(self)[key]`, which materializes the 6-element view first. -/
def getitem (env : SubprocOutcome) (r : uname_result) (key : Int) :
    Option String × uname_result × Nat :=
  let (t, r2, k) := iterSeq env r
  (pyIndex t key, r2, k)

/-- Embedding of `uname_result.__len__`: `len(tuple(iter(self)))`, which
materializes the 6-element view first. -/
def lenOp (env : SubprocOutcome) (r : uname_result) :
    Nat × uname_result × Nat :=
  let (t, r2, k) := iterSeq env r
  (t.length, r2, k)

/-- The `_fields` attribute seen by `uname_result`: the five names declared in
the namedtuple base (the class body does not override it). -/
def uname_result_fields : List String :=
  ["system", "node", "release", "version", "machine"]

/-- The `_fields` attribute of `uname_result2`: overridden in the class body
to declare all six names up front. -/
def uname_result2_fields : List String :=
  ["system", "node", "release", "version", "machine", "processor"]

/-- The class object stored in a `__reduce__` payload. Both classes name the
class `uname_result` there (also `uname_result2.__reduce__` returns
`uname_result`, not `uname_result2`). -/
inductive PyClass where
  | uname_result_cls
  | uname_result2_cls
deriving DecidableEq

/-- Embedding of `uname_result._make(iterable)`: `cls.__new__(cls, *iterable)`
raises a `TypeError` from the inherited five-parameter `__new__` unless the
iterable has exactly five elements; then `len(result)` (which forces the
resolver via the overridden `__len__`) is compared with `num_fields + 1`,
where `num_fields = len(cls._fields) = 5`, and a mismatch raises `TypeError`.
On success: the record (its cache now populated) and the resolver-call count. -/
def make1 (env : SubprocOutcome) (xs : List String) :
    Except String (uname_result × Nat) :=
  match xs with
  | [a, b, c, d, e] =>
    let num_fields := uname_result_fields.length
    let result := uname_result.new a b c d e
    let (n, r2, k) := lenOp env result
    if n ≠ num_fields + 1 then
      Except.error "TypeError: expected num_fields arguments"
    else
      Except.ok (r2, k)
  | _ => Except.error "TypeError: base tuple constructor takes 5 arguments"

/-- Embedding of `uname_result.__reduce__`: materializes `tuple(self)` (six
elements, forcing the resolver) and keeps the slice
`[:len(self._fields)]`, i.e. the first five, paired with the class object
`uname_result`. -/
def reduce1 (env : SubprocOutcome) (r : uname_result) :
    (PyClass × List String) × uname_result × Nat :=
  let (t, r2, k) := iterSeq env r
  ((PyClass.uname_result_cls, t.take uname_result_fields.length), r2, k)

/-- Reading the cached property `processor` of `uname_result2`: the method
body is character-for-character the one of `uname_result`. -/
def readProcessor2 (env : SubprocOutcome) (r : uname_result) :
    String × uname_result × Nat :=
  match r.processor_cache with
  | some v => (v, r, 0)
  | none =>
    let v := unknown_as_blank (Processor.get env)
    (v, { r with processor_cache := some v }, 1)

/-- Embedding of `uname_result2.__iter__` (same body as the first variant). -/
def iterSeq2 (env : SubprocOutcome) (r : uname_result) :
    List String × uname_result × Nat :=
  let (p, r2, k) := readProcessor2 env r
  ([r.system, r.node, r.release, r.version, r.machine, p], r2, k)

/-- Embedding of `uname_result2.__getitem__` for integer keys (same body as
the first variant). -/
def getitem2 (env : SubprocOutcome) (r : uname_result) (key : Int) :
    Option String × uname_result × Nat :=
  let (t, r2, k) := iterSeq2 env r
  (pyIndex t key, r2, k)

/-- Embedding of `uname_result2.__len__` (same body as the first variant). -/
def lenOp2 (env : SubprocOutcome) (r : uname_result) :
    Nat × uname_result × Nat :=
  let (t, r2, k) := iterSeq2 env r
  (t.length, r2, k)

/-- Embedding of `uname_result2._make(iterable)`: identical to `make1` except
that `num_fields` is computed as `len(cls._fields) - 1` from the overridden
six-name `_fields`. -/
def make2 (env : SubprocOutcome) (xs : List String) :
    Except String (uname_result × Nat) :=
  match xs with
  | [a, b, c, d, e] =>
    let num_fields := uname_result2_fields.length - 1
    let result := uname_result.new a b c d e
    let (n, r2, k) := lenOp2 env result
    if n ≠ num_fields + 1 then
      Except.error "TypeError: expected num_fields arguments"
    else
      Except.ok (r2, k)
  | _ => Except.error "TypeError: base tuple constructor takes 5 arguments"

/-- Embedding of `uname_result2.__reduce__`: materializes `tuple(self)` and
keeps the slice `[:len(self._fields) - 1]`, i.e. the first five of the six
declared names; the class object returned is again `uname_result`. -/
def reduce2 (env : SubprocOutcome) (r : uname_result) :
    (PyClass × List String) × uname_result × Nat :=
  let (t, r2, k) := iterSeq2 env r
  ((PyClass.uname_result_cls, t.take (uname_result2_fields.length - 1)), r2, k)

/-- Embedding of the dataclass `UnameInfo`, with its single field `uname`
holding a `uname_result2` value. -/
structure UnameInfo where
  uname : uname_result

/-- Embedding of the namedtuple branch of `dataclasses._asdict_inner` applied
to a `uname_result2` value: `asdict` recurses with
`type(obj)(*[_asdict_inner(v, dict_factory) for v in obj])`. The list
comprehension iterates the overridden `__iter__` (six elements, forcing the
resolver), `_asdict_inner` on a string is the identity (a deepcopy), and the
call `type(obj)(*elements)` reaches the inherited five-parameter `__new__`,
which raises a `TypeError` for any other element count. -/
def asdict_inner_tuple (env : SubprocOutcome) (r : uname_result) :
    Except String uname_result × uname_result × Nat :=
  let (t, r2, k) := iterSeq2 env r
  (match t with
   | [a, b, c, d, e] => Except.ok (uname_result.new a b c d e)
   | _ => Except.error "TypeError: base tuple constructor takes 5 arguments",
   r2, k)

/-- Embedding of `dataclasses.asdict(UnameInfo(uname=...))`: the dataclass
becomes a dictionary with the single key "uname" whose value comes from the
namedtuple branch; an exception raised there propagates to the caller. -/
def asdict_UnameInfo (env : SubprocOutcome) (s : UnameInfo) :
    Except String (List (String × uname_result)) × uname_result × Nat :=
  match asdict_inner_tuple env s.uname with
  | (Except.ok v, r2, k) => (Except.ok [("uname", v)], r2, k)
  | (Except.error msg, r2, k) => (Except.error msg, r2, k)

/-- The record `_uname_cache` built by `main`:
`uname_result2(*map(_unknown_as_blank, vals))` over the five literal
placeholder strings of the source. -/
def main_uname_cache : uname_result :=
  uname_result.new
    (unknown_as_blank "Darwin")
    (unknown_as_blank "CHARLESs-MBP.attlocal.net")
    (unknown_as_blank "21.5.0")
    (unknown_as_blank
      "Darwin Kernel Version 21.5.0: Tue Apr 26 21:08:22 PDT 2022; root:xnu-8020.121.3~4/RELEASE_X86_64")
    (unknown_as_blank "x86_64")

/-- Embedding of the tail of `main`: `asdict(UnameInfo(uname=_uname_cache))`
(the two `print` calls are I/O and not modelled). -/
def main_run (env : SubprocOutcome) :
    Except String (List (String × uname_result)) × uname_result × Nat :=
  asdict_UnameInfo env ⟨main_uname_cache⟩

/-- One externally triggered read of an instance: the `processor` property, a
length measurement, an iteration / full-sequence view, or an integer
indexing. These are the reads named by the idempotence clause of the spec. -/
inductive ReadOp where
  | procRead
  | lenRead
  | seqRead
  | getRead (key : Int)

/-- Run one read operation, keeping the updated record and the number of
resolver invocations it performed. -/
def runOp (env : SubprocOutcome) (r : uname_result) : ReadOp → uname_result × Nat
  | ReadOp.procRead => (readProcessor env r).2
  | ReadOp.lenRead => (lenOp env r).2
  | ReadOp.seqRead => (iterSeq env r).2
  | ReadOp.getRead key => (getitem env r key).2

/-- Run a whole sequence of reads, accumulating resolver invocations. -/
def runOps (env : SubprocOutcome) (r : uname_result) :
    List ReadOp → uname_result × Nat
  | [] => (r, 0)
  | op :: ops =>
    let (r1, k1) := runOp env r op
    let (r2, k2) := runOps env r1 ops
    (r2, k1 + k2)

end UnravellingAsdict

namespace UnravellingAsdict

/-- Canonical value produced by one resolver invocation under outcome `env`
(what the cached property computes and stores on a miss). -/
def resolvedVal (env : SubprocOutcome) : String :=
  unknown_as_blank (Processor.get env)

theorem readProcessor_hit (env : SubprocOutcome) (r : uname_result) (v : String)
    (h : r.processor_cache = some v) : readProcessor env r = (v, r, 0) := by
  simp [readProcessor, h]

theorem readProcessor_miss (env : SubprocOutcome) (r : uname_result)
    (h : r.processor_cache = none) :
    readProcessor env r =
      (resolvedVal env, { r with processor_cache := some (resolvedVal env) }, 1) := by
  simp [readProcessor, resolvedVal, h]

theorem runOp_hit (env : SubprocOutcome) (r : uname_result) (v : String)
    (op : ReadOp) (h : r.processor_cache = some v) :
    runOp env r op = (r, 0) := by
  cases op <;>
    simp [runOp, lenOp, iterSeq, getitem, readProcessor_hit env r v h]

theorem runOp_miss (env : SubprocOutcome) (r : uname_result) (op : ReadOp)
    (h : r.processor_cache = none) :
    runOp env r op = ({ r with processor_cache := some (resolvedVal env) }, 1) := by
  cases op <;>
    simp [runOp, lenOp, iterSeq, getitem, readProcessor_miss env r h]

theorem runOps_hit (env : SubprocOutcome) (r : uname_result) (v : String)
    (ops : List ReadOp) (h : r.processor_cache = some v) :
    runOps env r ops = (r, 0) := by
  induction ops with
  | nil => rfl
  | cons op ops ih => simp [runOps, runOp_hit env r v op h, ih]

theorem getitem_eq (env : SubprocOutcome) (r : uname_result) (key : Int) :
    getitem env r key =
      (pyIndex
        [r.system, r.node, r.release, r.version, r.machine,
          (readProcessor env r).1] key,
        (readProcessor env r).2) := by
  rcases h : r.processor_cache with _ | v <;>
    simp [getitem, iterSeq, readProcessor, h]

theorem pyIndex_six_none (a b c d e f : String) (key : Int) :
    pyIndex [a, b, c, d, e, f] key = none ↔ 6 ≤ key ∨ key < -6 := by
  have hlen : ([a, b, c, d, e, f] : List String).length = 6 := rfl
  simp only [pyIndex, hlen]
  split_ifs with h1 h2 <;> simp [List.get?_eq_none] <;> omega

theorem runOp_fresh_new (env : SubprocOutcome) (a b c d e : String)
    (op : ReadOp) :
    runOp env (uname_result.new a b c d e) op =
      (⟨a, b, c, d, e, some (resolvedVal env)⟩, 1) := by
  cases op <;> rfl

/-- The eager fields of the end-to-end scenario of the spec. -/
def scenario_record : uname_result :=
  uname_result.new "Darwin" "host.local" "21.5.0"
    "Darwin Kernel Version 21.5.0 ..." "x86_64"

/-- The resolver stub of the end-to-end scenario: `uname -p` succeeds with
stdout "i386". -/
def scenario_env : SubprocOutcome := SubprocOutcome.ok "i386"

/-- C1 counterexample: at the concrete scenario of the claim (the five Darwin
eager fields, resolver stub producing "i386"), converting the record to its
field-mapping view as the entry point does via `dataclasses.asdict` does not
yield any mapping: the namedtuple branch of `asdict` iterates the six-element
full view and passes all six elements to the inherited five-parameter
constructor, raising a `TypeError`. -/
theorem c1_counterexample :
    (asdict_UnameInfo scenario_env ⟨scenario_record⟩).1 =
      Except.error "TypeError: base tuple constructor takes 5 arguments" := rfl

/-- C1 (amended): at the scenario inputs, `to_sequence()` does return exactly
the six strings of the claim, but the asdict conversion performed by the entry
point raises a `TypeError` for every resolver outcome instead of producing a
field mapping. -/
theorem c1_sequence_ok_asdict_raises :
    (iterSeq2 scenario_env scenario_record).1 =
      ["Darwin", "host.local", "21.5.0", "Darwin Kernel Version 21.5.0 ...",
        "x86_64", "i386"] ∧
    (∀ env : SubprocOutcome,
      (main_run env).1 =
        Except.error "TypeError: base tuple constructor takes 5 arguments") :=
  ⟨rfl, fun _ => rfl⟩

/-- C2 counterexample: constructing a record with the literal word "unknown"
as its first eager argument stores the literal word itself, not the empty
string — the constructor performs no normalization. -/
theorem c2_counterexample :
    (uname_result.new "unknown" "n" "r" "v" "m").system = "unknown" ∧
    (uname_result.new "unknown" "n" "r" "v" "m").system ≠ "" :=
  ⟨rfl, by decide⟩

/-- C2 (amended): the constructors of both variants store the five eager
arguments verbatim; sentinel normalization is the duty of the caller, via the
helper `_unknown_as_blank`, which the entry point applies to every eager value
before construction, so a value equal to "unknown" is then stored as "". -/
theorem c2_normalization_at_call_site (a b c d e : String) :
    (uname_result.new a b c d e).system = a ∧
    (uname_result.new a b c d e).node = b ∧
    (uname_result.new a b c d e).release = c ∧
    (uname_result.new a b c d e).version = d ∧
    (uname_result.new a b c d e).machine = e ∧
    uname_result.new (unknown_as_blank a) (unknown_as_blank b)
        (unknown_as_blank c) (unknown_as_blank d) (unknown_as_blank e) =
      ⟨if a = "unknown" then "" else a, if b = "unknown" then "" else b,
        if c = "unknown" then "" else c, if d = "unknown" then "" else d,
        if e = "unknown" then "" else e, none⟩ :=
  ⟨rfl, rfl, rfl, rfl, rfl, rfl⟩

/-- C3: the two variants are indistinguishable on every listed observable.
Construction and named field access are shared by the embedding because the
physical representation (five namedtuple slots plus the cached-property slot)
is identical; the remaining observables are proved equal pointwise, including
`_make` and `__reduce__`, whose source differs in the `_fields` bookkeeping
(`len(_fields)` versus `len(_fields) - 1`). -/
theorem c3_variants_indistinguishable (env : SubprocOutcome)
    (r : uname_result) (xs : List String) (key : Int) :
    readProcessor2 env r = readProcessor env r ∧
    iterSeq2 env r = iterSeq env r ∧
    getitem2 env r key = getitem env r key ∧
    lenOp2 env r = lenOp env r ∧
    make2 env xs = make1 env xs ∧
    reduce2 env r = reduce1 env r :=
  ⟨rfl, rfl, rfl, rfl, rfl, rfl⟩

/-- C4: for every valid 5-tuple of strings, construction followed by the full
sequence view yields exactly those five values in declared order followed by a
sixth value equal to one resolver invocation, and that invocation happens
exactly once. -/
theorem c4_create_then_sequence (env : SubprocOutcome) (a b c d e : String) :
    iterSeq env (uname_result.new a b c d e) =
      ([a, b, c, d, e, unknown_as_blank (Processor.get env)],
        ⟨a, b, c, d, e, some (unknown_as_blank (Processor.get env))⟩, 1) := rfl

/-- C5: over any sequence of reads (`processor`, length, iteration or full
sequence view, indexing) on a freshly constructed instance, the resolver runs
at most once in total, and a read of the `processor` field at any point
returns the one canonical resolved value. -/
theorem c5_resolver_at_most_once (env : SubprocOutcome) (a b c d e : String)
    (ops : List ReadOp) :
    (runOps env (uname_result.new a b c d e) ops).2 ≤ 1 ∧
    (readProcessor env (runOps env (uname_result.new a b c d e) ops).1).1 =
      unknown_as_blank (Processor.get env) := by
  rcases ops with _ | ⟨op, ops⟩
  · exact ⟨Nat.zero_le 1, rfl⟩
  · have h1 := runOp_fresh_new env a b c d e op
    have h2 := runOps_hit env ⟨a, b, c, d, e, some (resolvedVal env)⟩
      (resolvedVal env) ops rfl
    constructor
    · simp [runOps, h1, h2]
    · simp [runOps, h1, h2, readProcessor]
      rfl

/-- C6: the reduced form of every instance, in both variants, is the class
object `uname_result` paired with exactly the five eager fields (the cached
processor value is excluded), and applying that constructor to those five
fields yields an instance whose five eager fields match the original exactly
and whose processor cache is unset, so the sixth field re-resolves
independently. -/
theorem c6_reduce_roundtrip (env : SubprocOutcome) (r : uname_result) :
    (reduce1 env r).1 =
      (PyClass.uname_result_cls,
        [r.system, r.node, r.release, r.version, r.machine]) ∧
    (reduce2 env r).1 =
      (PyClass.uname_result_cls,
        [r.system, r.node, r.release, r.version, r.machine]) ∧
    uname_result.new r.system r.node r.release r.version r.machine =
      ⟨r.system, r.node, r.release, r.version, r.machine, none⟩ := by
  have htake : ∀ x1 x2 x3 x4 x5 x6 : String,
      List.take 5 [x1, x2, x3, x4, x5, x6] = [x1, x2, x3, x4, x5] :=
    fun _ _ _ _ _ _ => rfl
  rcases h : r.processor_cache with _ | v <;>
    exact ⟨by simp [reduce1, iterSeq, readProcessor, h, uname_result_fields, htake],
      by simp [reduce2, iterSeq2, readProcessor2, h, uname_result2_fields, htake],
      rfl⟩

/-- C7: the logical field count of every instance is always six: the full
view produced by iteration has exactly six elements and `__len__` returns 6,
even though construction takes five positional values. -/
theorem c7_six_field_view (env : SubprocOutcome) (r : uname_result) :
    (iterSeq env r).1.length = 6 ∧ (lenOp env r).1 = 6 := by
  rcases h : r.processor_cache with _ | v <;>
    exact ⟨by simp [iterSeq, readProcessor, h],
      by simp [lenOp, iterSeq, readProcessor, h]⟩

/-- C8: integer indexing behaves as indexing the six-element full view:
index 5 and index -1 both return the processor value, and an index is an
`IndexError` (modelled `none`) exactly when it lies outside the range of a
six-element sequence, i.e. at or beyond 6, or below -6. -/
theorem c8_indexing_full_view (env : SubprocOutcome) (r : uname_result)
    (key : Int) :
    (getitem env r 5).1 = some (readProcessor env r).1 ∧
    (getitem env r (-1)).1 = some (readProcessor env r).1 ∧
    ((getitem env r key).1 = none ↔ 6 ≤ key ∨ key < -6) := by
  refine ⟨?_, ?_, ?_⟩ <;> rw [getitem_eq]
  · rfl
  · rfl
  · exact pyIndex_six_none r.system r.node r.release r.version r.machine
      (readProcessor env r).1 key

/-- C9: every failure of the external command (spawn error or command not
found, i.e. `OSError`, and non-zero exit, i.e. `CalledProcessError`) is caught
inside the resolver and yields the empty string, and a resolved value equal to
the sentinel word "unknown" is normalized to the empty string; the embedding
of the accessor is a total function into `String`, so no failure reaches the
caller. -/
theorem c9_failures_yield_empty (a b c d e : String) :
    Processor.get SubprocOutcome.osError = "" ∧
    Processor.get SubprocOutcome.calledProcessError = "" ∧
    (readProcessor SubprocOutcome.osError (uname_result.new a b c d e)).1 = "" ∧
    (readProcessor SubprocOutcome.calledProcessError
      (uname_result.new a b c d e)).1 = "" ∧
    (readProcessor (SubprocOutcome.ok "unknown")
      (uname_result.new a b c d e)).1 = "" :=
  ⟨rfl, rfl, rfl, rfl, rfl⟩

/-- C10: `_make` (in both variants) and `__reduce__` force the lazy
resolution before returning: `_make` invokes `__len__` for its arity check and
`__reduce__` materializes `tuple(self)`, so the produced record already has
its processor cache populated with the resolved value, and exactly one
resolver call has happened even though no caller read the field. -/
theorem c10_make_reduce_force_resolution (env : SubprocOutcome)
    (a b c d e : String) :
    make1 env [a, b, c, d, e] =
      Except.ok (⟨a, b, c, d, e, some (unknown_as_blank (Processor.get env))⟩, 1) ∧
    make2 env [a, b, c, d, e] =
      Except.ok (⟨a, b, c, d, e, some (unknown_as_blank (Processor.get env))⟩, 1) ∧
    reduce1 env (uname_result.new a b c d e) =
      ((PyClass.uname_result_cls, [a, b, c, d, e]),
        ⟨a, b, c, d, e, some (unknown_as_blank (Processor.get env))⟩, 1) :=
  ⟨rfl, rfl, rfl⟩

end UnravellingAsdict
